import Mathlib

/-!
Shallow embedding of the GROK_MCP server (`src/index.ts`), a Model Context
Protocol server exposing four tools (`analyze_transaction`, `analyze_address`,
`analyze_image`, `ask_grok`) that each build one chat-completions request and
forward it to the x.ai HTTP API.

Modelling conventions:
* JSON values are the inductive `JsonValue`; numbers are modelled as `Int`
  (no claim depends on floating-point number formatting).
* A JS object's fields are modelled as a function `String → Option JsonValue`
  (`ArgsBag`): field access `args.x` is application, an absent field is `none`.
* `JSON.parse` is an external platform function; the transaction handler is
  parameterised over it as `parseJson : String → Except String JsonValue`.
  A parsed JSON object is `JsonValue.obj kvs` with `kvs` listing the key/value
  pairs in the object's natural enumeration order (the order `Object.entries`
  yields).
* The upstream HTTP call (`axios.post` + extraction of
  `response.data.choices[0].message.content`) is an external effect, modelled
  as `upstream : ChatRequest → Except String String`: `.ok text` is a
  successful call returning the first completion's text, `.error m` is any
  thrown failure with message `m` (network error, HTTP error status, missing
  response field).  The bearer credential and HTTP headers are transport
  details carried outside the modelled JSON body.
* Handlers return `ToolResult × Nat`; the `Nat` counts how many upstream HTTP
  calls were attempted (0 or 1), so "no HTTP call is attempted" is provable.
* JS string truthiness (`if (s)`, `s ? a : b`, `x || y`) on an optional string
  is `strOptTruthy`: true exactly when the value is present and nonempty.
-/

namespace GrokMcp

/-- A JSON value. Object fields are listed in natural enumeration order. -/
inductive JsonValue where
  | null : JsonValue
  | bool (b : Bool) : JsonValue
  | num (n : Int) : JsonValue
  | str (s : String) : JsonValue
  | arr (elems : List JsonValue) : JsonValue
  | obj (fields : List (String × JsonValue)) : JsonValue

/-- Whether a JSON value is a string (`typeof v === 'string'`). -/
def JsonValue.isStr : JsonValue → Bool
  | .str _ => true
  | _ => false

mutual
/-- JS string coercion of a value, as in a template literal. -/
def jsToString : JsonValue → String
  | .null => "null"
  | .bool b => if b then "true" else "false"
  | .num n => toString n
  | .str s => s
  | .arr elems => String.intercalate "," (jsArrElems elems)
  | .obj _ => "[object Object]"

/-- Element coercion used by `Array.prototype.join`: null elements render as
the empty string. -/
def jsArrElems : List JsonValue → List String
  | [] => []
  | .null :: rest => "" :: jsArrElems rest
  | v :: rest => jsToString v :: jsArrElems rest
end

/-- `Object.entries` (and, for emptiness, `Object.keys`): throws a TypeError
on `null`; an object yields its fields in order; an array or string yields
index/element pairs; other primitives yield nothing. -/
def jsEntries : JsonValue → Except String (List (String × JsonValue))
  | .null => .error "Cannot convert undefined or null to object"
  | .obj fields => .ok fields
  | .arr elems => .ok ((elems.enum).map fun p => (toString p.1, p.2))
  | .str s => .ok ((s.toList.enum).map fun p => (toString p.1, .str (String.singleton p.2)))
  | .num _ => .ok []
  | .bool _ => .ok []

/-- JS truthiness of a `string | undefined` value: present and nonempty. -/
def strOptTruthy : Option String → Bool
  | some s => s ≠ ""
  | none => false

/-- A content part of a user message: `{type:"text", text}` or
`{type:"image_url", image_url:{url, detail}}`. -/
inductive ContentPart where
  | text (t : String) : ContentPart
  | imageUrl (url : String) (detail : String) : ContentPart
deriving DecidableEq, Repr

/-- Message content: the system messages carry a plain string, the user
messages carry a list of content parts. -/
inductive MessageContent where
  | str (s : String) : MessageContent
  | parts (ps : List ContentPart) : MessageContent
deriving DecidableEq, Repr

structure ChatMessage where
  role : String
  content : MessageContent
deriving DecidableEq, Repr

/-- The JSON body posted to `https://api.x.ai/v1/chat/completions`. -/
structure ChatRequest where
  model : String
  messages : List ChatMessage
  temperature : Rat
deriving DecidableEq, Repr

/-- The fixed sampling temperature `0.7` used by every tool. -/
def grokTemperature : Rat := 7 / 10

/-- One text block of a tool result (`{type:'text', text}`). -/
structure ToolContent where
  type : String
  text : String
deriving DecidableEq, Repr

/-- The envelope returned to the protocol runtime.  A successful handler
omits `isError` (undefined), modelled as `false`. -/
structure ToolResult where
  content : List ToolContent
  isError : Bool
deriving DecidableEq, Repr

def mkSuccessResult (answer : String) : ToolResult :=
  { content := [{ type := "text", text := answer }], isError := false }

def mkErrorResult (msg : String) : ToolResult :=
  { content := [{ type := "text", text := msg }], isError := true }

/-- The signature of the external upstream client: one HTTP POST of the
request body, returning the completion text or the failure's message. -/
abbrev Upstream := ChatRequest → Except String String

/-- The signature of the external `JSON.parse`. -/
abbrev ParseJson := String → Except String JsonValue

/- ————————————————————————— analyze_transaction ————————————————————————— -/

structure TransactionArgs where
  signature : String
  screenshot : Option String
  details : Option String
deriving DecidableEq, Repr

/-- System prompt of `handleAnalyzeTransaction` (index.ts lines 220-224). -/
def transactionSystemPrompt : String :=
  "You are an expert Solana blockchain analyst. " ++
  "Analyze the given transaction information and provide detailed insights. " ++
  "Focus on what the transaction does, which programs it interacts with, and its overall purpose. " ++
  "If applicable, mention any tokens transferred, their amounts, and the parties involved."

/-- `detailsObj` of `handleAnalyzeTransaction` (lines 211-218): starts as
`{}`; if `details` is truthy it is parsed, a parse failure being logged and
swallowed (leaving `{}`). -/
def transactionDetailsObj (parseJson : ParseJson) (details : Option String) : JsonValue :=
  match details with
  | none => .obj []
  | some d =>
    if d ≠ "" then
      match parseJson d with
      | .ok v => v
      | .error _ => .obj []
    else .obj []

/-- The `- key: value` lines appended for the entries of `detailsObj`
(lines 234-239): one line per entry in order, skipping a key literally named
`signature`. -/
def detailLines : List (String × JsonValue) → String
  | [] => ""
  | (k, v) :: rest =>
    (if k = "signature" then "" else "- " ++ k ++ ": " ++ jsToString v ++ "\n") ++
    detailLines rest

/-- `userPromptText` of `handleAnalyzeTransaction` (lines 230-239). -/
def transactionUserText (signature : String) (entries : List (String × JsonValue)) : String :=
  "Analyze this Solana transaction: " ++ signature ++ "\n\n" ++
  (if entries.length > 0 then "Additional details:\n" ++ detailLines entries else "")

/-- The screenshot image part appended when `screenshot` is truthy
(lines 247-255). -/
def screenshotParts : Option String → List ContentPart
  | none => []
  | some s => if s = "" then [] else
      [.imageUrl ("data:image/jpeg;base64," ++ s) "high"]

/-- The request body built by `handleAnalyzeTransaction` (lines 210-274).
`Object.keys(detailsObj)` throws when `detailsObj` is `null`, so building can
fail. -/
def buildTransactionRequest (parseJson : ParseJson) (args : TransactionArgs) :
    Except String ChatRequest :=
  match jsEntries (transactionDetailsObj parseJson args.details) with
  | .error e => .error e
  | .ok entries =>
    .ok { model := "grok-2-vision-latest"
          messages :=
            [ { role := "system", content := .str transactionSystemPrompt },
              { role := "user",
                content := .parts
                  (.text (transactionUserText args.signature entries) ::
                    screenshotParts args.screenshot) } ]
          temperature := grokTemperature }

/-- `handleAnalyzeTransaction` (lines 202-303): any throw inside the try
block — while building the payload or during the HTTP call — is caught and
returned as an `isError` result prefixed `Error analyzing transaction: `.
The second component counts attempted upstream calls. -/
def handleAnalyzeTransaction (parseJson : ParseJson) (args : TransactionArgs)
    (upstream : Upstream) : ToolResult × Nat :=
  match buildTransactionRequest parseJson args with
  | .error e => (mkErrorResult ("Error analyzing transaction: " ++ e), 0)
  | .ok req =>
    match upstream req with
    | .ok answer => (mkSuccessResult answer, 1)
    | .error e => (mkErrorResult ("Error analyzing transaction: " ++ e), 1)

/- ————————————————————————— analyze_address ————————————————————————— -/

structure AddressArgs where
  address : String
  screenshot : Option String
deriving DecidableEq, Repr

/-- System prompt of `handleAnalyzeAddress` (line 333). -/
def addressSystemPrompt : String :=
  "You are an expert Solana blockchain analyst. Analyze the given address information and provide detailed insights."

/-- The request body built by `handleAnalyzeAddress` (lines 310-347). -/
def buildAddressRequest (args : AddressArgs) : ChatRequest :=
  { model := "grok-2-vision-latest"
    messages :=
      [ { role := "system", content := .str addressSystemPrompt },
        { role := "user",
          content := .parts
            (.text ("Analyze this Solana address: " ++ args.address) ::
              screenshotParts args.screenshot) } ]
    temperature := grokTemperature }

/-- `handleAnalyzeAddress` (lines 305-376). -/
def handleAnalyzeAddress (args : AddressArgs) (upstream : Upstream) :
    ToolResult × Nat :=
  match upstream (buildAddressRequest args) with
  | .ok answer => (mkSuccessResult answer, 1)
  | .error e => (mkErrorResult ("Error analyzing address: " ++ e), 1)

/- ————————————————————————— analyze_image ————————————————————————— -/

structure ImageArgs where
  prompt : String
  image : Option String
  image_url : Option String
deriving DecidableEq, Repr

/-- System prompt of `handleAnalyzeImage` (line 417). -/
def imageSystemPrompt : String :=
  "You are an advanced AI with powerful vision capabilities. Analyze the provided image and respond to the user's query in detail."

/-- The leading image part shared verbatim by `handleAnalyzeImage`
(lines 390-406) and `handleAskGrok` (lines 475-491): a truthy base64 `image`
becomes a `data:` URL part; otherwise a truthy `image_url` is used directly;
otherwise there is no image part. -/
def leadImageParts (image image_url : Option String) : List ContentPart :=
  if strOptTruthy image then
    [.imageUrl ("data:image/jpeg;base64," ++ image.getD "") "high"]
  else if strOptTruthy image_url then
    [.imageUrl (image_url.getD "") "high"]
  else []

/-- The request body built by `handleAnalyzeImage` (lines 384-431). -/
def buildImageRequest (args : ImageArgs) : ChatRequest :=
  { model := "grok-2-vision-latest"
    messages :=
      [ { role := "system", content := .str imageSystemPrompt },
        { role := "user",
          content := .parts
            (leadImageParts args.image args.image_url ++ [.text args.prompt]) } ]
    temperature := grokTemperature }

/-- `handleAnalyzeImage` (lines 378-460). -/
def handleAnalyzeImage (args : ImageArgs) (upstream : Upstream) :
    ToolResult × Nat :=
  match upstream (buildImageRequest args) with
  | .ok answer => (mkSuccessResult answer, 1)
  | .error e => (mkErrorResult ("Error analyzing image: " ++ e), 1)

/- ————————————————————————— ask_grok ————————————————————————— -/

structure AskGrokArgs where
  question : String
  context : Option String
  image : Option String
  image_url : Option String
deriving DecidableEq, Repr

/-- System prompt of `handleAskGrok` (line 502). -/
def askGrokSystemPrompt : String :=
  "You are Grok, a helpful AI assistant with expertise in blockchain technology, especially Solana. You can also analyze images when provided."

/-- Text part of `handleAskGrok` (lines 494-497): `context` is prepended
when truthy. -/
def askGrokText (question : String) (context : Option String) : String :=
  if strOptTruthy context then context.getD "" ++ "\n\n" ++ question else question

/-- The request body built by `handleAskGrok` (lines 469-519): the model is
`grok-2-vision-latest` when `image || image_url` is truthy (line 511), else
`grok-2-latest`. -/
def buildAskGrokRequest (args : AskGrokArgs) : ChatRequest :=
  { model :=
      if strOptTruthy args.image || strOptTruthy args.image_url then
        "grok-2-vision-latest"
      else "grok-2-latest"
    messages :=
      [ { role := "system", content := .str askGrokSystemPrompt },
        { role := "user",
          content := .parts
            (leadImageParts args.image args.image_url ++
              [.text (askGrokText args.question args.context)]) } ]
    temperature := grokTemperature }

/-- `handleAskGrok` (lines 462-548). -/
def handleAskGrok (args : AskGrokArgs) (upstream : Upstream) :
    ToolResult × Nat :=
  match upstream (buildAskGrokRequest args) with
  | .ok answer => (mkSuccessResult answer, 1)
  | .error e => (mkErrorResult ("Error asking Grok: " ++ e), 1)

/- ————————————————————————— dispatcher ————————————————————————— -/

/-- The MCP error codes used by the dispatcher. -/
inductive ErrorCode where
  | InvalidParams : ErrorCode
  | MethodNotFound : ErrorCode
deriving DecidableEq, Repr

/-- An `McpError` thrown to the protocol layer. -/
structure McpErr where
  code : ErrorCode
  message : String
deriving DecidableEq, Repr

/-- The loosely-typed argument bag of a call: a JS object, absent fields
being `none`. -/
abbrev ArgsBag := String → Option JsonValue

/-- A `CallToolRequest`: tool name plus optional argument object
(`request.params.arguments` may be undefined). -/
structure ToolRequest where
  name : String
  arguments : Option ArgsBag

/-- `typeof args.k === 'string' ? args.k : undefined`, with an undefined
argument bag yielding undefined. -/
def argStr (args : Option ArgsBag) (k : String) : Option String :=
  match args with
  | none => none
  | some f =>
    match f k with
    | some (.str s) => some s
    | _ => none

/-- A call that passed the dispatcher's validation, with its normalized
per-tool arguments. -/
inductive ValidatedCall where
  | transaction (args : TransactionArgs) : ValidatedCall
  | address (args : AddressArgs) : ValidatedCall
  | image (args : ImageArgs) : ValidatedCall
  | askGrok (args : AskGrokArgs) : ValidatedCall
deriving DecidableEq, Repr

/-- Validation and normalization of the `CallToolRequest` handler
(lines 142-199): each branch checks its required field is a string (throwing
`InvalidParams` otherwise), normalizes each optional field to `undefined`
unless it is a string, and an unrecognized name throws `MethodNotFound`. -/
def validateToolRequest (req : ToolRequest) : Except McpErr ValidatedCall :=
  if req.name = "analyze_transaction" then
    match argStr req.arguments "signature" with
    | none => .error { code := .InvalidParams, message := "Missing required signature parameter" }
    | some sig =>
      .ok (.transaction
        { signature := sig
          screenshot := argStr req.arguments "screenshot"
          details := argStr req.arguments "details" })
  else if req.name = "analyze_address" then
    match argStr req.arguments "address" with
    | none => .error { code := .InvalidParams, message := "Missing required address parameter" }
    | some addr =>
      .ok (.address
        { address := addr
          screenshot := argStr req.arguments "screenshot" })
  else if req.name = "analyze_image" then
    match argStr req.arguments "prompt" with
    | none => .error { code := .InvalidParams, message := "Missing required prompt parameter" }
    | some p =>
      .ok (.image
        { prompt := p
          image := argStr req.arguments "image"
          image_url := argStr req.arguments "image_url" })
  else if req.name = "ask_grok" then
    match argStr req.arguments "question" with
    | none => .error { code := .InvalidParams, message := "Missing required question parameter" }
    | some q =>
      .ok (.askGrok
        { question := q
          context := argStr req.arguments "context"
          image := argStr req.arguments "image"
          image_url := argStr req.arguments "image_url" })
  else
    .error { code := .MethodNotFound, message := "Unknown tool: " ++ req.name }

/-- Runs the handler a validated call was dispatched to. -/
def runValidated (parseJson : ParseJson) (upstream : Upstream) :
    ValidatedCall → ToolResult × Nat
  | .transaction a => handleAnalyzeTransaction parseJson a upstream
  | .address a => handleAnalyzeAddress a upstream
  | .image a => handleAnalyzeImage a upstream
  | .askGrok a => handleAskGrok a upstream

/-- The complete `CallToolRequest` flow: validation then handler.  A
validation failure is raised to the protocol layer (`Except.error`); the
second component counts attempted upstream HTTP calls. -/
def dispatchToolRequest (parseJson : ParseJson) (upstream : Upstream)
    (req : ToolRequest) : Except McpErr ToolResult × Nat :=
  match validateToolRequest req with
  | .error e => (.error e, 0)
  | .ok v =>
    let r := runValidated parseJson upstream v
    (.ok r.1, r.2)

/-- The argument bag with every occurrence of one field removed — the "as if
the field were omitted" comparison point. -/
def removeArg (f : ArgsBag) (fld : String) : ArgsBag :=
  fun k => if k = fld then none else f k

/- ————————————————————————— helper lemmas ————————————————————————— -/

theorem argStr_remove_self (f : ArgsBag) (fld : String) :
    argStr (some (removeArg f fld)) fld = none := by
  simp [argStr, removeArg]

theorem argStr_remove_other (f : ArgsBag) (fld k : String) (h : k ≠ fld) :
    argStr (some (removeArg f fld)) k = argStr (some f) k := by
  simp [argStr, removeArg, h]

theorem argStr_eq_none_of_nonstring (f : ArgsBag) (k : String) (v : JsonValue)
    (hv : f k = some v) (hns : v.isStr = false) :
    argStr (some f) k = none := by
  cases v <;> simp_all [argStr, JsonValue.isStr]

theorem dispatch_congr (parseJson : ParseJson) (upstream : Upstream)
    (r1 r2 : ToolRequest)
    (h : validateToolRequest r1 = validateToolRequest r2) :
    dispatchToolRequest parseJson upstream r1 =
      dispatchToolRequest parseJson upstream r2 := by
  simp [dispatchToolRequest, h]

theorem handleAnalyzeTransaction_calls_once (pj : ParseJson)
    (a : TransactionArgs) (up : Upstream) (req : ChatRequest)
    (h : buildTransactionRequest pj a = .ok req) :
    (handleAnalyzeTransaction pj a up).2 = 1 := by
  cases hu : up req <;> simp [handleAnalyzeTransaction, h, hu]

/- ————————————————————————— claim theorems ————————————————————————— -/

/-- C1 counterexample: an `ask_grok` call that passes validation with `image`
supplied as the string `""` selects the text-only model `grok-2-latest`, not
the vision model, although a string `image` argument was supplied.  The
upstream client here echoes the request's model as the completion text, so
the selected model is observable in the tool result. -/
theorem askGrok_supplied_empty_image_cex :
    dispatchToolRequest (fun _ => .error "parse") (fun r => .ok r.model)
        { name := "ask_grok"
          arguments := some (fun k =>
            if k = "question" then some (.str "q")
            else if k = "image" then some (.str "") else none) } =
      (.ok (mkSuccessResult "grok-2-latest"), 1) ∧
    (fun k =>
        if k = "question" then some (JsonValue.str "q")
        else if k = "image" then some (JsonValue.str "") else none) "image" =
      some (JsonValue.str "") ∧
    "grok-2-latest" ≠ "grok-2-vision-latest" := by
  refine ⟨rfl, rfl, by decide⟩

/-- C1 (amended): the transaction, address and image tools always use the
vision model; `ask_grok` uses the text-only model when neither `image` nor
`image_url` is a truthy (present and nonempty) string, and the vision model
when either is truthy.  An `image` or `image_url` supplied as the empty
string behaves as absent. -/
theorem model_selection_per_tool (pj : ParseJson) (ta : TransactionArgs)
    (aa : AddressArgs) (ia : ImageArgs) (ga : AskGrokArgs) :
    (buildTransactionRequest pj ta).map ChatRequest.model =
      (buildTransactionRequest pj ta).map (fun _ => "grok-2-vision-latest") ∧
    (buildAddressRequest aa).model = "grok-2-vision-latest" ∧
    (buildImageRequest ia).model = "grok-2-vision-latest" ∧
    (strOptTruthy ga.image = false → strOptTruthy ga.image_url = false →
      (buildAskGrokRequest ga).model = "grok-2-latest") ∧
    (strOptTruthy ga.image = true ∨ strOptTruthy ga.image_url = true →
      (buildAskGrokRequest ga).model = "grok-2-vision-latest") := by
  refine ⟨?_, rfl, rfl, ?_, ?_⟩
  · cases h : jsEntries (transactionDetailsObj pj ta.details) <;>
      simp [buildTransactionRequest, h, Except.map]
  · intro h1 h2
    simp [buildAskGrokRequest, h1, h2]
  · intro h
    rcases h with h | h <;> simp [buildAskGrokRequest, h]

/-- C1 witness: `ask_grok` with a nonempty `image` string selects the vision
model. -/
theorem model_selection_per_tool_witness :
    strOptTruthy (some "img") = true ∧
    (buildAskGrokRequest ⟨"q", none, some "img", none⟩).model =
      "grok-2-vision-latest" :=
  ⟨by decide,
    (model_selection_per_tool (fun _ => .error "p")
        ⟨"s", none, none⟩ ⟨"a", none⟩ ⟨"p", none, none⟩
        ⟨"q", none, some "img", none⟩).2.2.2.2 (Or.inl (by decide))⟩

/-- C3: a call whose tool name is none of the four registered names is
rejected with a `MethodNotFound` error whose message is
`Unknown tool: <name>`, and no upstream HTTP call is attempted (the call
count is 0 for every upstream client). -/
theorem unknown_tool_method_not_found (pj : ParseJson) (up : Upstream)
    (req : ToolRequest)
    (h1 : req.name ≠ "analyze_transaction") (h2 : req.name ≠ "analyze_address")
    (h3 : req.name ≠ "analyze_image") (h4 : req.name ≠ "ask_grok") :
    dispatchToolRequest pj up req =
      (.error { code := .MethodNotFound, message := "Unknown tool: " ++ req.name }, 0) := by
  simp [dispatchToolRequest, validateToolRequest, h1, h2, h3, h4]

/-- C3 witness: the tool name `foo` is rejected without any upstream call. -/
theorem unknown_tool_method_not_found_witness :
    dispatchToolRequest (fun _ => .error "p") (fun _ => .error "u")
        { name := "foo", arguments := none } =
      (.error { code := .MethodNotFound, message := "Unknown tool: foo" }, 0) :=
  unknown_tool_method_not_found (fun _ => .error "p") (fun _ => .error "u")
    { name := "foo", arguments := none }
    (by decide) (by decide) (by decide) (by decide)

/-- C4: a call to one of the four tools whose required field is missing or is
not a string (including a missing argument object) is rejected with an
`InvalidParams` error whose message names the missing field, and no upstream
HTTP call is attempted. -/
theorem missing_required_field_invalid_params (pj : ParseJson) (up : Upstream)
    (args : Option ArgsBag) :
    (argStr args "signature" = none →
      dispatchToolRequest pj up { name := "analyze_transaction", arguments := args } =
        (.error { code := .InvalidParams, message := "Missing required signature parameter" }, 0)) ∧
    (argStr args "address" = none →
      dispatchToolRequest pj up { name := "analyze_address", arguments := args } =
        (.error { code := .InvalidParams, message := "Missing required address parameter" }, 0)) ∧
    (argStr args "prompt" = none →
      dispatchToolRequest pj up { name := "analyze_image", arguments := args } =
        (.error { code := .InvalidParams, message := "Missing required prompt parameter" }, 0)) ∧
    (argStr args "question" = none →
      dispatchToolRequest pj up { name := "ask_grok", arguments := args } =
        (.error { code := .InvalidParams, message := "Missing required question parameter" }, 0)) := by
  refine ⟨?_, ?_, ?_, ?_⟩ <;> intro h <;>
    simp [dispatchToolRequest, validateToolRequest, h]

/-- C4 witness: `analyze_transaction` with `signature` supplied as a number
is rejected with the invalid-params error and zero upstream calls. -/
theorem missing_required_field_invalid_params_witness :
    argStr (some (fun _ => some (JsonValue.num 5))) "signature" = none ∧
    dispatchToolRequest (fun _ => .error "p") (fun _ => .error "u")
        { name := "analyze_transaction",
          arguments := some (fun _ => some (JsonValue.num 5)) } =
      (.error { code := .InvalidParams, message := "Missing required signature parameter" }, 0) :=
  ⟨rfl,
    (missing_required_field_invalid_params (fun _ => .error "p")
        (fun _ => .error "u") (some (fun _ => some (JsonValue.num 5)))).1 rfl⟩

/-- C2: for a validated call, a failure while building the payload (possible
only in `analyze_transaction`, where `Object.keys` throws on a null
`detailsObj`) or a failure of the upstream HTTP call is never re-raised: the
handler returns, as an ordinary value, a `ToolResult` with `isError := true`
whose single text block is the operation-specific error text — the prefix
`Error analyzing transaction: ` / `Error analyzing address: ` /
`Error analyzing image: ` / `Error asking Grok: ` followed by the failure's
message.  (The handlers return `ToolResult × Nat` totally, not in an
exception monad, so no failure can reach the protocol layer.) -/
theorem handler_failures_become_error_results :
    (∀ (pj : ParseJson) (a : TransactionArgs) (up : Upstream) (m : String),
      buildTransactionRequest pj a = .error m →
      handleAnalyzeTransaction pj a up =
        (mkErrorResult ("Error analyzing transaction: " ++ m), 0)) ∧
    (∀ (pj : ParseJson) (a : TransactionArgs) (up : Upstream)
        (req : ChatRequest) (m : String),
      buildTransactionRequest pj a = .ok req → up req = .error m →
      handleAnalyzeTransaction pj a up =
        (mkErrorResult ("Error analyzing transaction: " ++ m), 1)) ∧
    (∀ (a : AddressArgs) (up : Upstream) (m : String),
      up (buildAddressRequest a) = .error m →
      handleAnalyzeAddress a up =
        (mkErrorResult ("Error analyzing address: " ++ m), 1)) ∧
    (∀ (a : ImageArgs) (up : Upstream) (m : String),
      up (buildImageRequest a) = .error m →
      handleAnalyzeImage a up =
        (mkErrorResult ("Error analyzing image: " ++ m), 1)) ∧
    (∀ (a : AskGrokArgs) (up : Upstream) (m : String),
      up (buildAskGrokRequest a) = .error m →
      handleAskGrok a up =
        (mkErrorResult ("Error asking Grok: " ++ m), 1)) := by
  refine ⟨?_, ?_, ?_, ?_, ?_⟩
  · intro pj a up m h
    simp [handleAnalyzeTransaction, h]
  · intro pj a up req m h hu
    simp [handleAnalyzeTransaction, h, hu]
  · intro a up m h
    simp [handleAnalyzeAddress, h]
  · intro a up m h
    simp [handleAnalyzeImage, h]
  · intro a up m h
    simp [handleAskGrok, h]

/-- C2 witness: a failing upstream call makes `analyze_address` return the
wrapped error result (one text block, `isError` true, one call attempted). -/
theorem handler_failures_become_error_results_witness :
    (fun (_ : ChatRequest) => (.error "boom" : Except String String))
        (buildAddressRequest ⟨"addr", none⟩) = .error "boom" ∧
    handleAnalyzeAddress ⟨"addr", none⟩ (fun _ => .error "boom") =
      (mkErrorResult ("Error analyzing address: " ++ "boom"), 1) :=
  ⟨rfl,
    handler_failures_become_error_results.2.2.1 ⟨"addr", none⟩
      (fun _ => .error "boom") "boom" rfl⟩

/-- C5: an optional field (`screenshot`, `details`, `image`, `image_url`,
`context`) supplied with a non-string value is silently normalized away: for
every parse function and upstream client, the dispatch outcome — including
the outbound `ChatRequest` the upstream client sees — is the one produced
when the field is omitted, and the call is not rejected on account of that
field. -/
theorem nonstring_optional_field_ignored :
    (∀ (pj : ParseJson) (up : Upstream) (f : ArgsBag) (v : JsonValue),
      f "screenshot" = some v → v.isStr = false →
      dispatchToolRequest pj up { name := "analyze_transaction", arguments := some f } =
        dispatchToolRequest pj up
          { name := "analyze_transaction", arguments := some (removeArg f "screenshot") }) ∧
    (∀ (pj : ParseJson) (up : Upstream) (f : ArgsBag) (v : JsonValue),
      f "details" = some v → v.isStr = false →
      dispatchToolRequest pj up { name := "analyze_transaction", arguments := some f } =
        dispatchToolRequest pj up
          { name := "analyze_transaction", arguments := some (removeArg f "details") }) ∧
    (∀ (pj : ParseJson) (up : Upstream) (f : ArgsBag) (v : JsonValue),
      f "screenshot" = some v → v.isStr = false →
      dispatchToolRequest pj up { name := "analyze_address", arguments := some f } =
        dispatchToolRequest pj up
          { name := "analyze_address", arguments := some (removeArg f "screenshot") }) ∧
    (∀ (pj : ParseJson) (up : Upstream) (f : ArgsBag) (v : JsonValue),
      f "image" = some v → v.isStr = false →
      dispatchToolRequest pj up { name := "analyze_image", arguments := some f } =
        dispatchToolRequest pj up
          { name := "analyze_image", arguments := some (removeArg f "image") }) ∧
    (∀ (pj : ParseJson) (up : Upstream) (f : ArgsBag) (v : JsonValue),
      f "image_url" = some v → v.isStr = false →
      dispatchToolRequest pj up { name := "analyze_image", arguments := some f } =
        dispatchToolRequest pj up
          { name := "analyze_image", arguments := some (removeArg f "image_url") }) ∧
    (∀ (pj : ParseJson) (up : Upstream) (f : ArgsBag) (v : JsonValue),
      f "context" = some v → v.isStr = false →
      dispatchToolRequest pj up { name := "ask_grok", arguments := some f } =
        dispatchToolRequest pj up
          { name := "ask_grok", arguments := some (removeArg f "context") }) ∧
    (∀ (pj : ParseJson) (up : Upstream) (f : ArgsBag) (v : JsonValue),
      f "image" = some v → v.isStr = false →
      dispatchToolRequest pj up { name := "ask_grok", arguments := some f } =
        dispatchToolRequest pj up
          { name := "ask_grok", arguments := some (removeArg f "image") }) ∧
    (∀ (pj : ParseJson) (up : Upstream) (f : ArgsBag) (v : JsonValue),
      f "image_url" = some v → v.isStr = false →
      dispatchToolRequest pj up { name := "ask_grok", arguments := some f } =
        dispatchToolRequest pj up
          { name := "ask_grok", arguments := some (removeArg f "image_url") }) := by
  refine ⟨?_, ?_, ?_, ?_, ?_, ?_, ?_, ?_⟩ <;>
    · intro pj up f v hv hns
      apply dispatch_congr
      have h1 := argStr_eq_none_of_nonstring f _ v hv hns
      simp [validateToolRequest, h1, argStr_remove_self, argStr_remove_other,
        argStr_eq_none_of_nonstring f _ v hv hns]

/-- C5 witness: `ask_grok` with `context` supplied as a number behaves
exactly as with `context` omitted. -/
theorem nonstring_optional_field_ignored_witness :
    (fun k => if k = "question" then some (JsonValue.str "q")
      else if k = "context" then some (JsonValue.num 3) else none) "context" =
      some (JsonValue.num 3) ∧
    (JsonValue.num 3).isStr = false ∧
    dispatchToolRequest (fun _ => .error "p") (fun r => .ok r.model)
        { name := "ask_grok"
          arguments := some (fun k => if k = "question" then some (JsonValue.str "q")
            else if k = "context" then some (JsonValue.num 3) else none) } =
      dispatchToolRequest (fun _ => .error "p") (fun r => .ok r.model)
        { name := "ask_grok"
          arguments := some (removeArg
            (fun k => if k = "question" then some (JsonValue.str "q")
              else if k = "context" then some (JsonValue.num 3) else none) "context") } :=
  ⟨rfl, rfl,
    nonstring_optional_field_ignored.2.2.2.2.2.1 (fun _ => .error "p")
      (fun r => .ok r.model)
      (fun k => if k = "question" then some (JsonValue.str "q")
        else if k = "context" then some (JsonValue.num 3) else none)
      (JsonValue.num 3) rfl rfl⟩

/-- C6: when `details` is a string the parse function rejects, the parse
error is swallowed: the build succeeds and the whole call — built request and
handler outcome alike — is the one produced with `details` omitted. -/
theorem details_parse_failure_behaves_as_omitted (pj : ParseJson)
    (sig : String) (sc : Option String) (d e : String)
    (h : pj d = .error e) :
    buildTransactionRequest pj ⟨sig, sc, some d⟩ =
      buildTransactionRequest pj ⟨sig, sc, none⟩ ∧
    (∃ req, buildTransactionRequest pj ⟨sig, sc, some d⟩ = .ok req) ∧
    ∀ up, handleAnalyzeTransaction pj ⟨sig, sc, some d⟩ up =
      handleAnalyzeTransaction pj ⟨sig, sc, none⟩ up := by
  have hobj : transactionDetailsObj pj (some d) = transactionDetailsObj pj none := by
    by_cases hd : d = "" <;> simp [transactionDetailsObj, hd, h]
  have hbuild : buildTransactionRequest pj ⟨sig, sc, some d⟩ =
      buildTransactionRequest pj ⟨sig, sc, none⟩ := by
    simp [buildTransactionRequest, hobj]
  refine ⟨hbuild, ?_, fun up => ?_⟩
  · rw [hbuild]; exact ⟨_, rfl⟩
  · simp [handleAnalyzeTransaction, hbuild]

/-- C6 witness: `details := "not json"` under a parse function rejecting
every string behaves exactly as `details` omitted. -/
theorem details_parse_failure_behaves_as_omitted_witness :
    (fun (_ : String) => (.error "bad JSON" : Except String JsonValue))
        "not json" = .error "bad JSON" ∧
    buildTransactionRequest (fun _ => .error "bad JSON")
        ⟨"sig", none, some "not json"⟩ =
      buildTransactionRequest (fun _ => .error "bad JSON") ⟨"sig", none, none⟩ :=
  ⟨rfl,
    (details_parse_failure_behaves_as_omitted (fun _ => .error "bad JSON")
      "sig" none "not json" "bad JSON" rfl).1⟩

/-- C7: when `details` parses to a JSON object with at least one entry, the
single text part of the user message carries the prompt followed by an
`Additional details:` block with one `- key: value` line per entry, in the
object's enumeration order, a key literally named `signature` being skipped
(`detailLines`); the second conjunct restates `detailLines` as one rendered
line per key in order. -/
theorem details_object_keys_rendered (pj : ParseJson) (sig : String)
    (sc : Option String) (d : String) (kvs : List (String × JsonValue))
    (hd : d ≠ "") (h : pj d = .ok (.obj kvs)) (hne : kvs ≠ []) :
    buildTransactionRequest pj ⟨sig, sc, some d⟩ =
      .ok { model := "grok-2-vision-latest"
            messages :=
              [ { role := "system", content := .str transactionSystemPrompt },
                { role := "user",
                  content := .parts
                    (.text ("Analyze this Solana transaction: " ++ sig ++ "\n\n" ++
                        ("Additional details:\n" ++ detailLines kvs)) ::
                      screenshotParts sc) } ]
            temperature := grokTemperature } ∧
    detailLines kvs =
      (kvs.map fun kv =>
        if kv.1 = "signature" then ""
        else "- " ++ kv.1 ++ ": " ++ jsToString kv.2 ++ "\n").foldr (· ++ ·) "" := by
  constructor
  · have hlen : kvs.length > 0 := List.length_pos.mpr hne
    simp [buildTransactionRequest, transactionDetailsObj, hd, h, jsEntries,
      transactionUserText, hlen]
  · clear h hne
    induction kvs with
    | nil => rfl
    | cons kv rest ih => simp [detailLines, ih]

/-- C7 witness: `details` parsing to the object with entries `amount` and
`signature` renders an `amount` line and no `signature` line. -/
theorem details_object_keys_rendered_witness :
    "details-json" ≠ "" ∧
    buildTransactionRequest
        (fun _ => .ok (.obj [("amount", .str "1.5"), ("signature", .str "x")]))
        ⟨"sig", none, some "details-json"⟩ =
      .ok { model := "grok-2-vision-latest"
            messages :=
              [ { role := "system", content := .str transactionSystemPrompt },
                { role := "user",
                  content := .parts
                    [.text ("Analyze this Solana transaction: " ++ "sig" ++ "\n\n" ++
                        ("Additional details:\n" ++
                          detailLines [("amount", .str "1.5"), ("signature", .str "x")]))] } ]
            temperature := grokTemperature } ∧
    detailLines [("amount", JsonValue.str "1.5"), ("signature", JsonValue.str "x")] =
      "- amount: 1.5\n" :=
  ⟨by decide,
    (details_object_keys_rendered
        (fun _ => .ok (.obj [("amount", .str "1.5"), ("signature", .str "x")]))
        "sig" none "details-json" [("amount", .str "1.5"), ("signature", .str "x")]
        (by decide) rfl (by exact List.cons_ne_nil _ _)).1,
    rfl⟩

/-- C8 counterexample: `analyze_image` with `image` supplied as the string
`""` and `image_url` supplied as the string `"u"` builds a user message whose
single image part carries the raw URL `u` — `image_url` is used, not ignored,
and the part is not the base64 data URL the claim requires. -/
theorem image_empty_base64_not_preferred_cex :
    buildImageRequest ⟨"p", some "", some "u"⟩ =
      { model := "grok-2-vision-latest"
        messages :=
          [ { role := "system", content := .str imageSystemPrompt },
            { role := "user",
              content := .parts [.imageUrl "u" "high", .text "p"] } ]
        temperature := grokTemperature } ∧
    "u" ≠ "data:image/jpeg;base64," ++ "" := by
  exact ⟨rfl, by decide⟩

/-- C8 (amended): when `image` is supplied as a nonempty string and
`image_url` is also supplied, both `analyze_image` and `ask_grok` build a
user message with exactly one image part, placed before the text part, and
that part is the `data:image/jpeg;base64,` URL of `image`; `image_url` does
not appear in the request.  (An empty `image` string behaves as absent and
lets `image_url` take over.) -/
theorem image_base64_preferred_when_nonempty (p i u q : String)
    (c : Option String) (hi : i ≠ "") :
    buildImageRequest ⟨p, some i, some u⟩ =
      { model := "grok-2-vision-latest"
        messages :=
          [ { role := "system", content := .str imageSystemPrompt },
            { role := "user",
              content := .parts
                [.imageUrl ("data:image/jpeg;base64," ++ i) "high", .text p] } ]
        temperature := grokTemperature } ∧
    buildAskGrokRequest ⟨q, c, some i, some u⟩ =
      { model := "grok-2-vision-latest"
        messages :=
          [ { role := "system", content := .str askGrokSystemPrompt },
            { role := "user",
              content := .parts
                [.imageUrl ("data:image/jpeg;base64," ++ i) "high",
                  .text (askGrokText q c)] } ]
        temperature := grokTemperature } := by
  constructor <;>
    simp [buildImageRequest, buildAskGrokRequest, leadImageParts, strOptTruthy, hi]

/-- C8 witness: with `image := "abc"` and `image_url := "u"`, both tools
build the base64 data-URL image part and ignore `image_url`. -/
theorem image_base64_preferred_when_nonempty_witness :
    "abc" ≠ "" ∧
    buildImageRequest ⟨"p", some "abc", some "u"⟩ =
      { model := "grok-2-vision-latest"
        messages :=
          [ { role := "system", content := .str imageSystemPrompt },
            { role := "user",
              content := .parts
                [.imageUrl ("data:image/jpeg;base64," ++ "abc") "high", .text "p"] } ]
        temperature := grokTemperature } :=
  ⟨by decide,
    (image_base64_preferred_when_nonempty "p" "abc" "u" "q" none (by decide)).1⟩

/-- C9: an optional field supplied as the empty string behaves as an absent
field: every builder yields the identical request with the field removed, and
`ask_grok` with `image` and `image_url` both empty (or absent) selects the
text-only model `grok-2-latest`. -/
theorem empty_string_optional_fields_as_absent :
    (∀ (pj : ParseJson) (s : String) (d : Option String),
      buildTransactionRequest pj ⟨s, some "", d⟩ =
        buildTransactionRequest pj ⟨s, none, d⟩) ∧
    (∀ (pj : ParseJson) (s : String) (sc : Option String),
      buildTransactionRequest pj ⟨s, sc, some ""⟩ =
        buildTransactionRequest pj ⟨s, sc, none⟩) ∧
    (∀ a : String, buildAddressRequest ⟨a, some ""⟩ = buildAddressRequest ⟨a, none⟩) ∧
    (∀ (p : String) (iu : Option String),
      buildImageRequest ⟨p, some "", iu⟩ = buildImageRequest ⟨p, none, iu⟩) ∧
    (∀ (p : String) (i : Option String),
      buildImageRequest ⟨p, i, some ""⟩ = buildImageRequest ⟨p, i, none⟩) ∧
    (∀ (q : String) (i iu : Option String),
      buildAskGrokRequest ⟨q, some "", i, iu⟩ = buildAskGrokRequest ⟨q, none, i, iu⟩) ∧
    (∀ (q : String) (c iu : Option String),
      buildAskGrokRequest ⟨q, c, some "", iu⟩ = buildAskGrokRequest ⟨q, c, none, iu⟩) ∧
    (∀ (q : String) (c i : Option String),
      buildAskGrokRequest ⟨q, c, i, some ""⟩ = buildAskGrokRequest ⟨q, c, i, none⟩) ∧
    (∀ (q : String) (c : Option String),
      (buildAskGrokRequest ⟨q, c, some "", some ""⟩).model = "grok-2-latest" ∧
      (buildAskGrokRequest ⟨q, c, none, none⟩).model = "grok-2-latest") :=
  ⟨fun _ _ _ => rfl, fun _ _ _ => rfl, fun _ => rfl, fun _ _ => rfl,
    fun _ _ => rfl, fun _ _ _ => rfl, fun _ _ _ => rfl, fun _ _ _ => rfl,
    fun _ _ => ⟨rfl, rfl⟩⟩

/-- C10: `details` parsing to JSON `null` does not behave as omission:
`Object.keys(null)` throws, the handler returns an error result whose text
starts with `Error analyzing transaction: ` (carrying the TypeError message),
and no upstream HTTP call is attempted — whereas with `details` omitted the
handler attempts exactly one upstream call. -/
theorem details_null_is_error_result (pj : ParseJson) (sig : String)
    (sc : Option String) (d : String) (up : Upstream)
    (hd : d ≠ "") (h : pj d = .ok .null) :
    handleAnalyzeTransaction pj ⟨sig, sc, some d⟩ up =
      (mkErrorResult ("Error analyzing transaction: " ++
        "Cannot convert undefined or null to object"), 0) ∧
    (handleAnalyzeTransaction pj ⟨sig, sc, none⟩ up).2 = 1 := by
  constructor
  · simp [handleAnalyzeTransaction, buildTransactionRequest,
      transactionDetailsObj, hd, h, jsEntries]
  · exact handleAnalyzeTransaction_calls_once pj ⟨sig, sc, none⟩ up _ rfl

/-- C10 witness: `details := "null"` under a parse function returning JSON
`null` yields the error result with zero upstream calls, while the omitted
form attempts one call. -/
theorem details_null_is_error_result_witness :
    "null" ≠ "" ∧
    (fun (_ : String) => (.ok JsonValue.null : Except String JsonValue))
        "null" = .ok JsonValue.null ∧
    handleAnalyzeTransaction (fun _ => .ok .null) ⟨"s", none, some "null"⟩
        (fun _ => .ok "resp") =
      (mkErrorResult ("Error analyzing transaction: " ++
        "Cannot convert undefined or null to object"), 0) ∧
    (handleAnalyzeTransaction (fun _ => .ok .null) ⟨"s", none, none⟩
        (fun _ => .ok "resp")).2 = 1 :=
  ⟨by decide, rfl,
    (details_null_is_error_result (fun _ => .ok .null) "s" none "null"
        (fun _ => .ok "resp") (by decide) rfl).1,
    (details_null_is_error_result (fun _ => .ok .null) "s" none "null"
        (fun _ => .ok "resp") (by decide) rfl).2⟩

end GrokMcp
